import Mathlib

/-!
Verification of the `midjourney-prompt` application core (`src/main.rs`):
the form-state model (`Prompt`), the command synthesizer (`Prompt::command`),
the default-state fallback in `main`, and the serde round trip of the
persisted fields.

Machine integers (`u16`, `u32`) are embedded as `Nat`; no arithmetic is
performed on them, so overflow never matters.  Rust's `str::trim` is embedded
as a structural function removing leading and trailing whitespace characters
from the string's character list.
-/

/-- Embedding of Rust `str::trim`: drop leading and trailing whitespace. -/
def strTrim (s : String) : String :=
  ⟨((s.data.dropWhile Char.isWhitespace).reverse.dropWhile Char.isWhitespace).reverse⟩

/-- The `Algorithm` enum from `src/main.rs` (variants `V3`, `Test`, `TestPhoto`). -/
inductive Algorithm where
  | v3
  | test
  | testPhoto
deriving DecidableEq

/-- `Algorithm::str` from `src/main.rs`. -/
def Algorithm.str : Algorithm → String
  | .v3 => "v3"
  | .test => "test"
  | .testPhoto => "testp"

/-- `DEFAULT_STYLIZE` from `src/main.rs`. -/
def DEFAULT_STYLIZE : Nat := 2500

/-- Lower end of the stylize slider range (`Slider::new(&mut self.stylize, 625..=60000)`). -/
def STYLIZE_MIN : Nat := 625

/-- Upper end of the stylize slider range. -/
def STYLIZE_MAX : Nat := 60000

/-- The `Prompt` struct from `src/main.rs`; `text` and `copied_command` are the
two `#[serde(skip)]` (transient) fields. -/
structure Prompt where
  text : String
  suffixes : List (String × Bool)
  algorithm : Algorithm
  aspect_w : Nat
  aspect_h : Nat
  stylize : Nat
  video : Bool
  copy_on_change : Bool
  use_seed : Bool
  seed : Nat
  copied_command : String
deriving DecidableEq

/-- `Prompt::command` from `src/main.rs`, clause by clause in source order. -/
def Prompt.command (p : Prompt) : String :=
  let s := "/imagine prompt: " ++ strTrim p.text
  let s := p.suffixes.foldl
    (fun s q => if q.2 && !(strTrim q.1).isEmpty then s ++ ", " ++ strTrim q.1 else s) s
  let s := if p.stylize ≠ DEFAULT_STYLIZE then s ++ " --stylize " ++ toString p.stylize else s
  let s := if (p.aspect_w, p.aspect_h) ≠ (1, 1) then
    s ++ " --ar " ++ toString p.aspect_w ++ ":" ++ toString p.aspect_h else s
  let s := if p.video then s ++ " --video" else s
  let s := if p.use_seed then s ++ " --sameseed " ++ toString p.seed else s
  let s := if p.algorithm ≠ Algorithm.v3 then s ++ " --" ++ p.algorithm.str else s
  s

/-- The fragment a single suffix entry contributes to the command. -/
def suffixItem (q : String × Bool) : String :=
  if q.2 && !(strTrim q.1).isEmpty then ", " ++ strTrim q.1 else ""

/-- The whole suffix portion of the command, entry fragments in sequence order. -/
def suffixPart : List (String × Bool) → String
  | [] => ""
  | q :: rest => suffixItem q ++ suffixPart rest

/-- The stylize clause: emitted only when `stylize` differs from the sentinel. -/
def stylizeClause (p : Prompt) : String :=
  if p.stylize ≠ DEFAULT_STYLIZE then " --stylize " ++ toString p.stylize else ""

/-- The aspect-ratio clause: emitted only when the aspect is not `1:1`. -/
def arClause (p : Prompt) : String :=
  if (p.aspect_w, p.aspect_h) ≠ (1, 1) then
    " --ar " ++ toString p.aspect_w ++ ":" ++ toString p.aspect_h else ""

/-- The video clause. -/
def videoClause (p : Prompt) : String :=
  if p.video then " --video" else ""

/-- The seed clause: emitted only when `use_seed` is set. -/
def seedClause (p : Prompt) : String :=
  if p.use_seed then " --sameseed " ++ toString p.seed else ""

/-- The algorithm clause: emitted only for a non-default algorithm. -/
def algoClause (p : Prompt) : String :=
  if p.algorithm ≠ Algorithm.v3 then " --" ++ p.algorithm.str else ""

/-- The hard-coded fallback state from `main` (`unwrap_or_else`): note the
single suffix entry `("realistic", false)` is NOT enabled. -/
def defaultPrompt : Prompt where
  text := ""
  suffixes := [("realistic", false)]
  algorithm := Algorithm.v3
  aspect_w := 1
  aspect_h := 1
  stylize := DEFAULT_STYLIZE
  use_seed := false
  seed := 0
  video := false
  copy_on_change := true
  copied_command := ""

/-- YAML-level values, the serde data model used by `serde_yaml`. -/
inductive Value where
  | str : String → Value
  | nat : Nat → Value
  | bool : Bool → Value
  | seq : List Value → Value
  | map : List (String × Value) → Value

/-- The serde name of each `Algorithm` variant (`rename_all = "lowercase"`). -/
def Algorithm.serName : Algorithm → String
  | .v3 => "v3"
  | .test => "test"
  | .testPhoto => "testphoto"

/-- Parse a serde variant name back to an `Algorithm`. -/
def Algorithm.deName (s : String) : Option Algorithm :=
  if s = "v3" then some .v3
  else if s = "test" then some .test
  else if s = "testphoto" then some .testPhoto
  else none

/-- Serde encoding of one `(String, bool)` suffix entry: a two-element tuple. -/
def encodeSuffix (q : String × Bool) : Value :=
  .seq [.str q.1, .bool q.2]

/-- Serde decoding of one suffix entry. -/
def decodeSuffix : Value → Option (String × Bool)
  | .seq [.str s, .bool b] => some (s, b)
  | _ => none

/-- Serde decoding of the suffix sequence, in order; fails if any entry does. -/
def decodeSuffixes : List Value → Option (List (String × Bool))
  | [] => some []
  | v :: rest =>
    match decodeSuffix v, decodeSuffixes rest with
    | some q, some l => some (q :: l)
    | _, _ => none

/-- Derived `Serialize` for `Prompt`: a mapping of the non-`skip` fields under
their field names, in struct declaration order. -/
def serializePrompt (p : Prompt) : Value :=
  .map [("suffixes", .seq (p.suffixes.map encodeSuffix)),
        ("algorithm", .str p.algorithm.serName),
        ("aspect_w", .nat p.aspect_w),
        ("aspect_h", .nat p.aspect_h),
        ("stylize", .nat p.stylize),
        ("video", .bool p.video),
        ("copy_on_change", .bool p.copy_on_change),
        ("use_seed", .bool p.use_seed),
        ("seed", .nat p.seed)]

/-- Look up a field of a serde mapping by key. -/
def getField (kvs : List (String × Value)) (k : String) : Option Value :=
  (kvs.find? (fun q => q.1 == k)).map (fun q => q.2)

/-- Expect a natural-number scalar. -/
def asNat : Value → Option Nat
  | .nat n => some n
  | _ => none

/-- Expect a boolean scalar. -/
def asBool : Value → Option Bool
  | .bool b => some b
  | _ => none

/-- Expect a string scalar. -/
def asStr : Value → Option String
  | .str s => some s
  | _ => none

/-- Expect a sequence. -/
def asSeq : Value → Option (List Value)
  | .seq l => some l
  | _ => none

/-- Derived `Deserialize` for `Prompt`: the `skip` fields `text` and
`copied_command` are filled with `Default::default()` (the empty string). -/
def deserializePrompt : Value → Option Prompt
  | .map kvs => do
    let sufv ← getField kvs "suffixes" >>= asSeq
    let suffixes ← decodeSuffixes sufv
    let algName ← getField kvs "algorithm" >>= asStr
    let algorithm ← Algorithm.deName algName
    let aspect_w ← getField kvs "aspect_w" >>= asNat
    let aspect_h ← getField kvs "aspect_h" >>= asNat
    let stylize ← getField kvs "stylize" >>= asNat
    let video ← getField kvs "video" >>= asBool
    let copy_on_change ← getField kvs "copy_on_change" >>= asBool
    let use_seed ← getField kvs "use_seed" >>= asBool
    let seed ← getField kvs "seed" >>= asNat
    some { text := "", suffixes, algorithm, aspect_w, aspect_h, stylize, video,
           copy_on_change, use_seed, seed, copied_command := "" }
  | _ => none

/-- `main`'s load expression: `fs::read(..).ok().and_then(parse.ok).unwrap_or_else(default)`.
The argument is `none` when the file is missing, unreadable, or not parseable
as a YAML document; a malformed document that parses but has the wrong shape
is `some v` with `deserializePrompt v = none`. -/
def load (file : Option Value) : Prompt :=
  (file.bind deserializePrompt).getD defaultPrompt

theorem append_if_append (c : Prop) [Decidable c] (s x : String) :
    (if c then s ++ x else s) = s ++ (if c then x else "") := by
  by_cases h : c <;> simp [h]

theorem foldl_suffix (l : List (String × Bool)) (s : String) :
    l.foldl (fun s q => if q.2 && !(strTrim q.1).isEmpty then s ++ ", " ++ strTrim q.1 else s) s
      = s ++ suffixPart l := by
  induction l generalizing s with
  | nil => simp [suffixPart]
  | cons q rest ih =>
    simp only [List.foldl_cons, suffixPart, ih, suffixItem]
    by_cases h : q.2 && !(strTrim q.1).isEmpty <;>
      simp [h, String.append_assoc]

/-- `Prompt.command` decomposes into its clauses in source order. -/
theorem command_parts (p : Prompt) :
    p.command = "/imagine prompt: " ++ strTrim p.text ++ suffixPart p.suffixes ++
      stylizeClause p ++ arClause p ++ videoClause p ++ seedClause p ++ algoClause p := by
  unfold Prompt.command stylizeClause arClause videoClause seedClause algoClause
  dsimp only
  rw [foldl_suffix]
  split_ifs <;>
    simp only [String.append_assoc, String.append_empty, String.empty_append]

theorem string_foldl_append (l : List String) (s : String) :
    l.foldl (fun r t => r ++ t) s = s ++ l.foldl (fun r t => r ++ t) "" := by
  induction l generalizing s with
  | nil => simp [String.append_empty]
  | cons a l ih =>
    simp only [List.foldl_cons]
    rw [ih (s ++ a), ih ("" ++ a), String.empty_append, String.append_assoc]

theorem string_join_cons (a : String) (l : List String) :
    String.join (a :: l) = a ++ String.join l := by
  simp only [String.join, List.foldl_cons, String.empty_append]
  exact string_foldl_append l a

/-- C2: the documented basic example: prompt text `a cat`, one enabled suffix
`realistic`, everything else at its default, synthesizes exactly
`/imagine prompt: a cat, realistic`. -/
theorem command_basic_example :
    Prompt.command {
      text := "a cat", suffixes := [("realistic", true)],
      algorithm := Algorithm.v3, aspect_w := 1, aspect_h := 1,
      stylize := DEFAULT_STYLIZE, video := false, copy_on_change := true,
      use_seed := false, seed := 0, copied_command := "" }
      = "/imagine prompt: a cat, realistic" := by decide

/-- C1 counterexample: the fallback default produced on a failed load does
not have its single `realistic` suffix enabled — the entry is
`("realistic", false)`, so the claimed default (entry enabled) is wrong. -/
theorem load_default_suffix_not_enabled :
    load none ≠ {
      text := "", suffixes := [("realistic", true)],
      algorithm := Algorithm.v3, aspect_w := 1, aspect_h := 1, stylize := 2500,
      video := false, copy_on_change := true, use_seed := false, seed := 0,
      copied_command := "" } := by decide

/-- C1 (amended): when the persisted file is missing, unreadable, or
malformed, `load` returns the hard-coded default — empty prompt text, exactly
one suffix entry `"realistic"` that is disabled, algorithm `v3`, aspect `1:1`,
stylize at the sentinel `2500`, `use_seed` false, seed `0`, video false,
`copy_on_change` true, empty last-copied command — and never an error. -/
theorem load_fallback_default (file : Option Value)
    (h : file.bind deserializePrompt = none) :
    load file = {
      text := "", suffixes := [("realistic", false)],
      algorithm := Algorithm.v3, aspect_w := 1, aspect_h := 1, stylize := 2500,
      video := false, copy_on_change := true, use_seed := false, seed := 0,
      copied_command := "" } := by
  unfold load
  rw [h]
  rfl

/-- Witness for C1 (amended) at the concrete input `none` (missing file). -/
theorem load_fallback_default_witness :
    load none = {
      text := "", suffixes := [("realistic", false)],
      algorithm := Algorithm.v3, aspect_w := 1, aspect_h := 1, stylize := 2500,
      video := false, copy_on_change := true, use_seed := false, seed := 0,
      copied_command := "" } :=
  load_fallback_default none rfl

theorem suffixItem_eq (q : String × Bool) :
    suffixItem q = if q.2 = true ∧ strTrim q.1 ≠ "" then ", " ++ strTrim q.1 else "" := by
  unfold suffixItem
  by_cases h1 : q.2 <;> by_cases h2 : strTrim q.1 = "" <;>
    simp [h1, h2, String.isEmpty_iff]

theorem suffixPart_eq_join (l : List (String × Bool)) :
    suffixPart l = String.join (l.map (fun q =>
      if q.2 = true ∧ strTrim q.1 ≠ "" then ", " ++ strTrim q.1 else "")) := by
  induction l with
  | nil => rfl
  | cons q rest ih =>
    simp only [suffixPart, List.map_cons, string_join_cons, ih, suffixItem_eq]

/-- C3: the command is always the fixed-order concatenation of prefix plus
trimmed text, suffix fragments, stylize clause, aspect clause, video clause,
seed clause, algorithm clause; with `stylize = 5000` the segment
`" --stylize 5000"` sits after the suffixes and before the remaining clauses. -/
theorem command_clause_order (p : Prompt) :
    p.command = "/imagine prompt: " ++ strTrim p.text ++ suffixPart p.suffixes ++
      stylizeClause p ++ arClause p ++ videoClause p ++ seedClause p ++ algoClause p ∧
    (p.stylize = 5000 →
      p.command = "/imagine prompt: " ++ strTrim p.text ++ suffixPart p.suffixes ++
        " --stylize 5000" ++ arClause p ++ videoClause p ++ seedClause p ++ algoClause p) := by
  refine ⟨command_parts p, fun h => ?_⟩
  have hs : stylizeClause p = " --stylize 5000" := by
    unfold stylizeClause
    rw [h]
    decide
  rw [command_parts, hs]

/-- Witness for C3 at a concrete state with `stylize = 5000`. -/
theorem command_clause_order_witness :
    Prompt.command {
      text := "x", suffixes := [], algorithm := Algorithm.v3, aspect_w := 1,
      aspect_h := 1, stylize := 5000, video := false, copy_on_change := true,
      use_seed := false, seed := 0, copied_command := "" }
      = "/imagine prompt: x --stylize 5000" := by
  have h := (command_clause_order {
      text := "x", suffixes := [], algorithm := Algorithm.v3, aspect_w := 1,
      aspect_h := 1, stylize := 5000, video := false, copy_on_change := true,
      use_seed := false, seed := 0, copied_command := "" }).2 rfl
  rw [h]
  decide

/-- C4: each suffix entry contributes `", " ++ trimmed label` exactly when it
is enabled and its label does not trim to empty, and contributes nothing
otherwise; contributions appear in sequence order, once per occurrence. -/
theorem command_suffix_contribution (p : Prompt) :
    p.command = "/imagine prompt: " ++ strTrim p.text ++
      String.join (p.suffixes.map (fun q =>
        if q.2 = true ∧ strTrim q.1 ≠ "" then ", " ++ strTrim q.1 else "")) ++
      stylizeClause p ++ arClause p ++ videoClause p ++ seedClause p ++ algoClause p := by
  rw [command_parts, suffixPart_eq_join]

/-- C5: with aspect `1:1` no aspect clause is emitted; with any other aspect
the output contains `" --ar "` followed by width, `":"`, and height, in the
aspect clause position. -/
theorem command_ar_clause (p : Prompt) :
    ((p.aspect_w, p.aspect_h) = (1, 1) → arClause p = "" ∧
      p.command = "/imagine prompt: " ++ strTrim p.text ++ suffixPart p.suffixes ++
        stylizeClause p ++ videoClause p ++ seedClause p ++ algoClause p) ∧
    ((p.aspect_w, p.aspect_h) ≠ (1, 1) →
      p.command = "/imagine prompt: " ++ strTrim p.text ++ suffixPart p.suffixes ++
        stylizeClause p ++ (" --ar " ++ toString p.aspect_w ++ ":" ++ toString p.aspect_h) ++
        videoClause p ++ seedClause p ++ algoClause p) := by
  constructor
  · intro h
    have har : arClause p = "" := by simp [arClause, h]
    refine ⟨har, ?_⟩
    rw [command_parts, har, String.append_empty]
  · intro h
    have har : arClause p = " --ar " ++ toString p.aspect_w ++ ":" ++ toString p.aspect_h := by
      unfold arClause
      rw [if_pos h]
    rw [command_parts, har]

/-- Witness for C5 at aspect `1:1` (no clause) and aspect `16:9`. -/
theorem command_ar_clause_witness :
    arClause {
      text := "", suffixes := [], algorithm := Algorithm.v3, aspect_w := 1,
      aspect_h := 1, stylize := 2500, video := false, copy_on_change := true,
      use_seed := false, seed := 0, copied_command := "" } = "" ∧
    Prompt.command {
      text := "z", suffixes := [], algorithm := Algorithm.v3, aspect_w := 16,
      aspect_h := 9, stylize := 2500, video := false, copy_on_change := true,
      use_seed := false, seed := 0, copied_command := "" }
      = "/imagine prompt: z --ar 16:9" := by
  constructor
  · exact ((command_ar_clause {
      text := "", suffixes := [], algorithm := Algorithm.v3, aspect_w := 1,
      aspect_h := 1, stylize := 2500, video := false, copy_on_change := true,
      use_seed := false, seed := 0, copied_command := "" }).1 rfl).1
  · have h := (command_ar_clause {
      text := "z", suffixes := [], algorithm := Algorithm.v3, aspect_w := 16,
      aspect_h := 9, stylize := 2500, video := false, copy_on_change := true,
      use_seed := false, seed := 0, copied_command := "" }).2 (by decide)
    rw [h]
    decide

/-- C6: with `use_seed` set, the output carries `" --sameseed " ++ seed`
after the video clause and before the algorithm clause; with `use_seed`
unset, no seed clause is emitted whatever `seed` holds. -/
theorem command_seed_clause (p : Prompt) :
    (p.use_seed = true →
      p.command = "/imagine prompt: " ++ strTrim p.text ++ suffixPart p.suffixes ++
        stylizeClause p ++ arClause p ++ videoClause p ++
        (" --sameseed " ++ toString p.seed) ++ algoClause p) ∧
    (p.use_seed = false → seedClause p = "" ∧
      p.command = "/imagine prompt: " ++ strTrim p.text ++ suffixPart p.suffixes ++
        stylizeClause p ++ arClause p ++ videoClause p ++ algoClause p) := by
  constructor
  · intro h
    have hs : seedClause p = " --sameseed " ++ toString p.seed := by simp [seedClause, h]
    rw [command_parts, hs]
  · intro h
    have hs : seedClause p = "" := by simp [seedClause, h]
    refine ⟨hs, ?_⟩
    rw [command_parts, hs, String.append_empty]

/-- Witness for C6 with `use_seed = true, seed = 42` and with `use_seed = false`. -/
theorem command_seed_clause_witness :
    Prompt.command {
      text := "y", suffixes := [], algorithm := Algorithm.v3, aspect_w := 1,
      aspect_h := 1, stylize := 2500, video := false, copy_on_change := true,
      use_seed := true, seed := 42, copied_command := "" }
      = "/imagine prompt: y --sameseed 42" ∧
    seedClause {
      text := "y", suffixes := [], algorithm := Algorithm.v3, aspect_w := 1,
      aspect_h := 1, stylize := 2500, video := false, copy_on_change := true,
      use_seed := false, seed := 42, copied_command := "" } = "" := by
  constructor
  · have h := (command_seed_clause {
      text := "y", suffixes := [], algorithm := Algorithm.v3, aspect_w := 1,
      aspect_h := 1, stylize := 2500, video := false, copy_on_change := true,
      use_seed := true, seed := 42, copied_command := "" }).1 rfl
    rw [h]
    decide
  · exact ((command_seed_clause {
      text := "y", suffixes := [], algorithm := Algorithm.v3, aspect_w := 1,
      aspect_h := 1, stylize := 2500, video := false, copy_on_change := true,
      use_seed := false, seed := 42, copied_command := "" }).2 rfl).1

/-- C7: the default algorithm `v3` emits no token; `test` makes the output
end in `" --test"`; `testPhoto` makes it end in `" --testp"`. -/
theorem command_algorithm_clause (p : Prompt) :
    (p.algorithm = Algorithm.v3 → algoClause p = "" ∧
      p.command = "/imagine prompt: " ++ strTrim p.text ++ suffixPart p.suffixes ++
        stylizeClause p ++ arClause p ++ videoClause p ++ seedClause p) ∧
    (p.algorithm = Algorithm.test →
      p.command = "/imagine prompt: " ++ strTrim p.text ++ suffixPart p.suffixes ++
        stylizeClause p ++ arClause p ++ videoClause p ++ seedClause p ++ " --test") ∧
    (p.algorithm = Algorithm.testPhoto →
      p.command = "/imagine prompt: " ++ strTrim p.text ++ suffixPart p.suffixes ++
        stylizeClause p ++ arClause p ++ videoClause p ++ seedClause p ++ " --testp") := by
  refine ⟨fun h => ?_, fun h => ?_, fun h => ?_⟩
  · have ha : algoClause p = "" := by simp [algoClause, h]
    exact ⟨ha, by rw [command_parts, ha, String.append_empty]⟩
  · have ha : algoClause p = " --test" := by
      unfold algoClause
      rw [h]
      decide
    rw [command_parts, ha]
  · have ha : algoClause p = " --testp" := by
      unfold algoClause
      rw [h]
      decide
    rw [command_parts, ha]

/-- Witness for C7 at the three algorithm values. -/
theorem command_algorithm_clause_witness :
    algoClause {
      text := "w", suffixes := [], algorithm := Algorithm.v3, aspect_w := 1,
      aspect_h := 1, stylize := 2500, video := false, copy_on_change := true,
      use_seed := false, seed := 0, copied_command := "" } = "" ∧
    Prompt.command {
      text := "w", suffixes := [], algorithm := Algorithm.test, aspect_w := 1,
      aspect_h := 1, stylize := 2500, video := false, copy_on_change := true,
      use_seed := false, seed := 0, copied_command := "" }
      = "/imagine prompt: w --test" ∧
    Prompt.command {
      text := "w", suffixes := [], algorithm := Algorithm.testPhoto, aspect_w := 1,
      aspect_h := 1, stylize := 2500, video := false, copy_on_change := true,
      use_seed := false, seed := 0, copied_command := "" }
      = "/imagine prompt: w --testp" := by
  refine ⟨?_, ?_, ?_⟩
  · exact ((command_algorithm_clause {
      text := "w", suffixes := [], algorithm := Algorithm.v3, aspect_w := 1,
      aspect_h := 1, stylize := 2500, video := false, copy_on_change := true,
      use_seed := false, seed := 0, copied_command := "" }).1 rfl).1
  · have h := (command_algorithm_clause {
      text := "w", suffixes := [], algorithm := Algorithm.test, aspect_w := 1,
      aspect_h := 1, stylize := 2500, video := false, copy_on_change := true,
      use_seed := false, seed := 0, copied_command := "" }).2.1 rfl
    rw [h]
    decide
  · have h := (command_algorithm_clause {
      text := "w", suffixes := [], algorithm := Algorithm.testPhoto, aspect_w := 1,
      aspect_h := 1, stylize := 2500, video := false, copy_on_change := true,
      use_seed := false, seed := 0, copied_command := "" }).2.2 rfl
    rw [h]
    decide

theorem decode_encode_suffix (q : String × Bool) :
    decodeSuffix (encodeSuffix q) = some q := rfl

theorem decodeSuffixes_encode (l : List (String × Bool)) :
    decodeSuffixes (l.map encodeSuffix) = some l := by
  induction l with
  | nil => rfl
  | cons q rest ih => simp [decodeSuffixes, decode_encode_suffix, ih]

theorem deName_serName (a : Algorithm) : Algorithm.deName a.serName = some a := by
  cases a <;> rfl

/-- C8: serializing a state (the two transient fields are skipped) and
deserializing the result succeeds and restores every persisted field. -/
theorem serialize_roundtrip (p : Prompt) :
    ∃ p', deserializePrompt (serializePrompt p) = some p' ∧
      p'.suffixes = p.suffixes ∧ p'.algorithm = p.algorithm ∧
      p'.aspect_w = p.aspect_w ∧ p'.aspect_h = p.aspect_h ∧
      p'.stylize = p.stylize ∧ p'.use_seed = p.use_seed ∧ p'.seed = p.seed ∧
      p'.video = p.video ∧ p'.copy_on_change = p.copy_on_change := by
  refine ⟨{ p with text := "", copied_command := "" },
    ?_, rfl, rfl, rfl, rfl, rfl, rfl, rfl, rfl, rfl⟩
  simp [deserializePrompt, serializePrompt, getField, List.find?, asSeq, asStr,
        asNat, asBool, decodeSuffixes_encode, deName_serName]

/-- C9: the synthesizer is a pure, total function of the state — two
applications to the same unmutated state give identical strings. -/
theorem command_deterministic (s t : Prompt) (h : s = t) :
    s.command = t.command := by rw [h]

/-- Witness for C9 at a concrete state. -/
theorem command_deterministic_witness :
    Prompt.command {
      text := "", suffixes := [], algorithm := Algorithm.v3, aspect_w := 1,
      aspect_h := 1, stylize := 2500, video := false, copy_on_change := true,
      use_seed := false, seed := 0, copied_command := "" } = Prompt.command {
      text := "", suffixes := [], algorithm := Algorithm.v3, aspect_w := 1,
      aspect_h := 1, stylize := 2500, video := false, copy_on_change := true,
      use_seed := false, seed := 0, copied_command := "" } :=
  command_deterministic _ _ rfl

/-- C10: the sentinel `2500` lies strictly inside the slider domain
`[625, 60000]`, and any state whose stylize strength is exactly `2500` —
chosen or not — emits no stylize clause at all. -/
theorem stylize_sentinel_inside_domain :
    STYLIZE_MIN < DEFAULT_STYLIZE ∧ DEFAULT_STYLIZE < STYLIZE_MAX ∧
    ∀ p : Prompt, p.stylize = 2500 → stylizeClause p = "" ∧
      p.command = "/imagine prompt: " ++ strTrim p.text ++ suffixPart p.suffixes ++
        arClause p ++ videoClause p ++ seedClause p ++ algoClause p := by
  refine ⟨by decide, by decide, fun p h => ?_⟩
  have hs : stylizeClause p = "" := by simp [stylizeClause, h, DEFAULT_STYLIZE]
  refine ⟨hs, ?_⟩
  rw [command_parts, hs, String.append_empty]

/-- Witness for C10 at a concrete state with stylize deliberately set to 2500. -/
theorem stylize_sentinel_inside_domain_witness :
    stylizeClause {
      text := "cat", suffixes := [], algorithm := Algorithm.v3, aspect_w := 1,
      aspect_h := 1, stylize := 2500, video := false, copy_on_change := true,
      use_seed := false, seed := 0, copied_command := "" } = "" ∧
    Prompt.command {
      text := "cat", suffixes := [], algorithm := Algorithm.v3, aspect_w := 1,
      aspect_h := 1, stylize := 2500, video := false, copy_on_change := true,
      use_seed := false, seed := 0, copied_command := "" } = "/imagine prompt: cat" := by
  have h := stylize_sentinel_inside_domain.2.2 {
      text := "cat", suffixes := [], algorithm := Algorithm.v3, aspect_w := 1,
      aspect_h := 1, stylize := 2500, video := false, copy_on_change := true,
      use_seed := false, seed := 0, copied_command := "" } rfl
  refine ⟨h.1, ?_⟩
  rw [h.2]
  decide
